import Mathlib

/-!
Verification development for a small repository of three Python scripts:
a logo harvester (scrape_logos.py), a hero-image downloader
(download_hero_image.py) and a raster-format converter (convert_to_avif.py).
The scripts are embedded shallowly: pure decision logic becomes Lean
functions, network and filesystem interaction is modelled by explicit
oracles (page fetch results, HTTP GET results) and by traces of effect
events over an explicit filesystem state.
-/

/-- Boolean test that the string p is a character-for-character leading
segment of s. This is the semantics of the Python str.startswith used by
the scripts as their only discriminator between URL and inline markup. -/
def strStarts (s p : String) : Bool :=
  s.data.take p.data.length == p.data

/-- Boolean test that the character list pat occurs contiguously inside s,
the semantics of the Python substring test (pat in s). -/
def occursIn (pat : List Char) : List Char → Bool
  | [] => pat.isEmpty
  | c :: rest => (c :: rest).take pat.length == pat || occursIn pat rest

/-- Python truthiness of an optional string: None and the empty string are
falsy, every other string is truthy. The scripts branch on this. -/
def truthy : Option String → Bool
  | none => false
  | some s => !(s == "")

/-- An img element as the heuristic sees it: its optional alt attribute and
its optional src attribute (img.get returns None when absent). -/
structure ImgTag where
  alt : Option String
  src : Option String
deriving DecidableEq

/-- An inline svg element: attribute list and pretty-printed inner lines,
the data its serialization is rebuilt from. -/
structure SvgTag where
  attrs : List (String × String)
  innerLines : List String
deriving DecidableEq

/-- One element of the parsed page, in document order. Elements other than
img and svg are irrelevant to the heuristic and collapsed into one case. -/
inductive Node where
  | img : ImgTag → Node
  | svg : SvgTag → Node
  | other : Node
deriving DecidableEq

/-- The img elements of the document, in document order: find_all img. -/
def imgTags : List Node → List ImgTag
  | [] => []
  | Node.img i :: rest => i :: imgTags rest
  | _ :: rest => imgTags rest

/-- The svg elements of the document, in document order: find_all svg. -/
def svgTags : List Node → List SvgTag
  | [] => []
  | Node.svg s :: rest => s :: svgTags rest
  | _ :: rest => svgTags rest

/-- The alt-attribute match of scrape_logos.py line 23: one of the keywords
logo, brand occurs in the character-wise lowercased alt text; a missing alt
attribute is read as the empty string via img.get with default. -/
def matchesLogoAlt (alt : String) : Bool :=
  occursIn (("logo").data) (alt.data.map Char.toLower) ||
    occursIn (("brand").data) (alt.data.map Char.toLower)

/-- Whether an img element matches the logo heuristic. -/
def imgMatches (i : ImgTag) : Bool :=
  matchesLogoAlt (i.alt.getD (""))

/-- The first img element in document order whose alt matches, i.e. the
element at which the for-loop of lines 22-25 breaks. -/
def firstMatchingImg (doc : List Node) : Option ImgTag :=
  (imgTags doc).find? imgMatches

/-- The first svg element in document order, svg_tags[0] of line 32. -/
def firstSvg (doc : List Node) : Option SvgTag :=
  (svgTags doc).head?

/-- Serialization of one svg attribute list as it appears inside the
opening tag. -/
def attrsText : List (String × String) → String
  | [] => ""
  | (k, v) :: rest => " " ++ k ++ "=" ++ v ++ attrsText rest

/-- Concatenation of pretty-printed inner lines, one per line. -/
def innerText : List String → String
  | [] => ""
  | l :: rest => l ++ "\n" ++ innerText rest

/-- Serialized markup of an svg element as produced by the HTML library
pretty-printer: the opening tag with its attributes, the indented content
lines, the closing tag. Its exact formatting is library behaviour; what the
scripts rely on is only that it is the markup of the element and opens with
the literal svg tag. -/
def prettify (s : SvgTag) : String :=
  "<svg" ++ attrsText s.attrs ++ ">\n" ++ innerText s.innerLines ++ "</svg>"

/-- The body of get_logo_url after a successful fetch and parse, lines
17-34: take the src of the first alt-matching img; if that value is falsy
(no matching img, or the matching img has an absent or empty src) fall back
to the first svg element, returning its pretty-printed markup; with no svg
either, return the falsy img result unchanged. -/
def get_logo_from_doc (doc : List Node) : Option String :=
  let logo : Option String :=
    match firstMatchingImg doc with
    | some i => i.src
    | none => none
  if truthy logo then logo
  else
    match firstSvg doc with
    | some s => some (prettify s)
    | none => logo

/-- Result of fetching and parsing one page: the parsed document, or an
exception (transport error, non-success status via raise_for_status, or a
parse error), carried as its message. -/
inductive FetchResult where
  | ok : List Node → FetchResult
  | err : String → FetchResult
deriving DecidableEq

/-- Effect events the scripts perform: idempotent directory creation, a
text write of content into dir/name, a binary write of a byte body into
dir/name, and a printed log line. -/
inductive Event where
  | mkdirp : String → Event
  | writeText : String → String → String → Event
  | writeBin : String → String → List Nat → Event
  | log : String → Event
deriving DecidableEq

/-- Result of an HTTP GET for an asset: the body bytes, or a failure
(transport error or non-success status raised by raise_for_status). -/
inductive HttpResult where
  | ok : List Nat → HttpResult
  | fail : HttpResult
deriving DecidableEq

/-- get_logo_url of scrape_logos.py lines 11-37, with the fetch modelled by
an oracle from URL to fetch result: on any exception the function logs and
returns None; otherwise it runs the document heuristic. Returns the
candidate together with the log lines it printed. -/
def get_logo_url (pageOf : String → FetchResult) (url : String) :
    Option String × List Event :=
  match pageOf url with
  | FetchResult.err e => (none, [Event.log ("Error scraping " ++ url ++ ": " ++ e)])
  | FetchResult.ok doc => (get_logo_from_doc doc, [])

/-- Python lstrip with a slash argument: remove every leading slash. -/
def lstripSlash (s : String) : String :=
  String.mk (s.data.dropWhile (fun c => c == '/'))

/-- Python rstrip with a slash argument: remove every trailing slash. -/
def rstripSlash (s : String) : String :=
  String.mk (((s.data.reverse).dropWhile (fun c => c == '/')).reverse)

/-- The relative-URL normalization of scrape_logos.py lines 78-79: a
candidate already opening with inline svg markup or an HTTP or HTTPS scheme
is left unchanged; otherwise the site base URL with trailing slashes
stripped, one slash, and the candidate with leading slashes stripped are
concatenated. -/
def normalize_candidate (base cand : String) : String :=
  if strStarts cand ("<svg") || strStarts cand ("http://") ||
      strStarts cand ("https://") then cand
  else rstripSlash base ++ "/" ++ lstripSlash cand

/-- save_logo of scrape_logos.py lines 39-62, the HTTP GET modelled by an
oracle: inline svg markup is written as text; an HTTP or HTTPS URL is
fetched, a failure (exception or non-success status) is caught and logged
with no write, a success body is written as binary; anything else is logged
as an invalid format and skipped. Every branch ends the function normally,
returning its trace of effects. -/
def save_logo (httpGet : String → HttpResult) (url filename : String) :
    List Event :=
  if strStarts url ("<svg") then
    [Event.writeText ("public/images") filename url,
     Event.log ("Successfully saved " ++ filename)]
  else if strStarts url ("http://") || strStarts url ("https://") then
    match httpGet url with
    | HttpResult.ok body =>
        [Event.writeBin ("public/images") filename body,
         Event.log ("Successfully saved " ++ filename)]
    | HttpResult.fail =>
        [Event.log ("Error saving " ++ filename)]
  else
    [Event.log ("Invalid URL format: " ++ url)]

/-- Filesystem state: the existing directories and the existing files, each
by full path. A write event appends to files of an existing directory. -/
structure FS where
  dirs : List String
  files : List String
deriving DecidableEq

/-- create_image_folder of scrape_logos.py lines 6-9 (the identical copy in
download_hero_image.py lines 5-8): create the output directory only when it
does not exist yet, logging when it was created. Returns the trace and the
updated filesystem. -/
def create_image_folder (fs : FS) : List Event × FS :=
  if ("public/images") ∈ fs.dirs then ([], fs)
  else ([Event.mkdirp ("public/images"),
         Event.log ("Created public/images folder")],
        FS.mk (("public/images") :: fs.dirs) fs.files)

/-- The fixed site table of scrape_logos.py lines 67-70. -/
def websites : List (String × String) :=
  [(("https://luih.com"), ("luih_logo.svg")),
   (("https://invisto.us"), ("invisto_logo.svg"))]

/-- The per-site body of the main loop of scrape_logos.py lines 72-83:
announce the site, run the heuristic, and on a truthy candidate normalize
and save it, otherwise report that no logo was found. -/
def processSite (pageOf : String → FetchResult) (httpGet : String → HttpResult)
    (site : String × String) : List Event :=
  let r := get_logo_url pageOf site.1
  Event.log ("Processing " ++ site.1) :: r.2 ++
    (if truthy r.1 then
      save_logo httpGet (normalize_candidate site.1 (r.1.getD (""))) site.2
    else
      [Event.log ("Could not find logo for " ++ site.1)])

/-- Concatenation of a list of traces in order. -/
def catLists : List (List Event) → List Event
  | [] => []
  | t :: rest => t ++ catLists rest

/-- main of scrape_logos.py lines 64-83: create the output directory, then
process every site of the fixed table in order. -/
def scrape_main (fs : FS) (pageOf : String → FetchResult)
    (httpGet : String → HttpResult) : List Event :=
  (create_image_folder fs).1 ++ catLists (websites.map (processSite pageOf httpGet))

/-- The first img element whose alt attribute equals the exact string Hero
Image, the find call of download_hero_image.py line 26. -/
def findHeroImg (doc : List Node) : Option ImgTag :=
  (imgTags doc).find? (fun i => i.alt == some ("Hero Image"))

/-- The relative-URL handling of download_hero_image.py lines 33-34: a
source not opening with an HTTP or HTTPS scheme is prefixed with the bare
host string by plain concatenation. -/
def hero_url (s : String) : String :=
  if strStarts s ("http://") || strStarts s ("https://") then s
  else "https://preline.co" ++ s

/-- download_hero_image of download_hero_image.py lines 10-48, page fetch
and asset GET modelled by oracles: create the output directory, fetch and
parse the fixed page (any exception caught and logged), look for the img
with alt Hero Image; found with a truthy src, resolve its URL and download
and write the bytes, a GET failure being caught and logged; otherwise print
the informational message. Returns the trace and the final filesystem. -/
def download_hero_image (fs : FS) (page : FetchResult)
    (httpGet : String → HttpResult) : List Event × FS :=
  let cf := create_image_folder fs
  match page with
  | FetchResult.err e =>
      (cf.1 ++ [Event.log ("Error downloading hero image: " ++ e)], cf.2)
  | FetchResult.ok doc =>
    match findHeroImg doc with
    | some i =>
      if truthy i.src then
        match httpGet (hero_url (i.src.getD (""))) with
        | HttpResult.ok body =>
            (cf.1 ++ [Event.writeBin ("public/images") ("hero-image.png") body,
                      Event.log ("Successfully downloaded hero image")],
             FS.mk cf.2.dirs (("public/images/hero-image.png") :: cf.2.files))
        | HttpResult.fail =>
            (cf.1 ++ [Event.log ("Error downloading hero image")], cf.2)
      else (cf.1 ++ [Event.log ("Could not find hero image on the page")], cf.2)
    | none =>
        (cf.1 ++ [Event.log ("Could not find hero image on the page")], cf.2)

/-- Color mode of an opened raster image, the modes the library decoders
produce for standard raster formats. Among them LA and RGBA are the modes
carrying an alpha channel and P is the palette-indexed mode. -/
inductive Mode where
  | one | l | la | p | rgb | rgba | i | f | cmyk | ycbcr
deriving DecidableEq

/-- An opened image as convert_to_avif.py inspects it: its mode string and
whether a transparency entry is present in img.info. -/
structure PILImage where
  mode : Mode
  transInfo : Bool
deriving DecidableEq

/-- The pre-processing of convert_to_avif.py lines 17-18: when the mode is
RGBA or LA, or is P with a transparency entry in the info dictionary, the
image is converted to RGB; otherwise it is left unchanged. -/
def preprocess (img : PILImage) : PILImage :=
  if (img.mode == Mode.rgba || img.mode == Mode.la) ||
      (img.mode == Mode.p && img.transInfo) then
    PILImage.mk Mode.rgb img.transInfo
  else img

/-- convert_to_avif of convert_to_avif.py lines 4-25, the image open
modelled by an oracle and the format encoder by a function argument: any
exception during open, convert or save is caught and logged; on success the
pre-processed image is handed to the encoder and its output written to the
destination. -/
def convert_to_avif (encoder : PILImage → Nat → List Nat)
    (openImg : Except String PILImage) (outDir outName : String)
    (quality : Nat) : List Event :=
  match openImg with
  | Except.error e => [Event.log ("Error converting image: " ++ e)]
  | Except.ok img =>
      [Event.writeBin outDir outName (encoder (preprocess img) quality),
       Event.log ("Successfully converted")]

/-- main of convert_to_avif.py lines 27-38: abort with a message when the
fixed input file does not exist, otherwise convert it at quality 80 into
the fixed output path. No directory is created here. -/
def convert_main (fs : FS) (encoder : PILImage → Nat → List Nat)
    (openImg : Except String PILImage) : List Event :=
  if ("public/images/hero-image.png") ∈ fs.files then
    convert_to_avif encoder openImg ("public/images") ("hero-image.avif") 80
  else
    [Event.log ("Error: public/images/hero-image.png does not exist")]

/-- Directories existing after a trace runs from the given directory set. -/
def dirsAfter (ds : List String) : List Event → List String
  | [] => ds
  | Event.mkdirp d :: rest => dirsAfter (d :: ds) rest
  | _ :: rest => dirsAfter ds rest

/-- Checks a trace from a directory set: every write event must target a
directory existing at that point of the trace. -/
def writesSafe (ds : List String) : List Event → Bool
  | [] => true
  | Event.mkdirp d :: rest => writesSafe (d :: ds) rest
  | Event.writeText d _ _ :: rest => decide (d ∈ ds) && writesSafe ds rest
  | Event.writeBin d _ _ :: rest => decide (d ∈ ds) && writesSafe ds rest
  | Event.log _ :: rest => writesSafe ds rest

/-- Whether an event is a directory creation. -/
def isMkdir : Event → Bool
  | Event.mkdirp _ => true
  | _ => false

/-- Whether an event is a file write of either kind. -/
def isWrite : Event → Bool
  | Event.writeText _ _ _ => true
  | Event.writeBin _ _ _ => true
  | _ => false

/-- Whether an event is a printed log line. -/
def isLog : Event → Bool
  | Event.log _ => true
  | _ => false

/-- The document with every svg element removed; the image scan cannot
distinguish a document from its svg-free version. -/
def eraseSvgs (doc : List Node) : List Node :=
  doc.filter (fun n => match n with | Node.svg _ => false | _ => true)

/-- The modes with an alpha channel among the modes decoders produce for
standard raster formats: grayscale-plus-alpha and RGB-plus-alpha. -/
def hasAlpha : Mode → Bool
  | Mode.la => true
  | Mode.rgba => true
  | _ => false

/-- A document whose first alt-matching img element has no src attribute,
followed by an svg element. -/
def c1doc : List Node :=
  [Node.img (ImgTag.mk (some ("logo")) none), Node.svg (SvgTag.mk [] [])]

/-- A filesystem on which the converter proceeds to its write: the output
directory and the input file exist. -/
def c4fs : FS :=
  FS.mk [("public/images")] [("public/images/hero-image.png")]

/-- A trivial concrete encoder used to run the converter on c4fs. -/
def c4enc : PILImage → Nat → List Nat := fun _ _ => []

theorem strData_append (a b : String) : (a ++ b).data = a.data ++ b.data := rfl

theorem strStarts_append (p t : String) : strStarts (p ++ t) p = true := by
  simp [strStarts, strData_append, List.take_left]

theorem imgTags_eraseSvgs (doc : List Node) :
    imgTags (eraseSvgs doc) = imgTags doc := by
  induction doc with
  | nil => rfl
  | cons n rest ih =>
    cases n <;> simp [eraseSvgs, imgTags, List.filter] at ih ⊢ <;>
      simpa [eraseSvgs] using ih

theorem writesSafe_append (ds : List String) (a b : List Event) :
    writesSafe ds (a ++ b) = (writesSafe ds a && writesSafe (dirsAfter ds a) b) := by
  induction a generalizing ds with
  | nil => simp [writesSafe, dirsAfter]
  | cons e rest ih =>
    cases e <;> simp [writesSafe, dirsAfter, ih, Bool.and_assoc]

theorem mem_dirsAfter (d : String) (ds : List String) (evs : List Event)
    (h : d ∈ ds) : d ∈ dirsAfter ds evs := by
  induction evs generalizing ds with
  | nil => exact h
  | cons e rest ih =>
    cases e <;> simp [dirsAfter] <;> apply ih <;> simp [h]

theorem save_logo_safe (g : String → HttpResult) (u f : String)
    (ds : List String) (h : ("public/images") ∈ ds) :
    writesSafe ds (save_logo g u f) = true := by
  by_cases h1 : strStarts u ("<svg")
  · simp [save_logo, h1, writesSafe, h]
  · by_cases h2 : strStarts u ("http://") || strStarts u ("https://")
    · cases hg : g u <;> simp [save_logo, h1, h2, hg, writesSafe, h]
    · simp [save_logo, h1, h2, writesSafe]

theorem processSite_safe (p : String → FetchResult) (g : String → HttpResult)
    (site : String × String) (ds : List String)
    (h : ("public/images") ∈ ds) :
    writesSafe ds (processSite p g site) = true := by
  unfold processSite
  cases hp : p site.1 with
  | ok doc =>
    by_cases ht : truthy (get_logo_from_doc doc) <;>
      simp [get_logo_url, hp, ht, writesSafe, save_logo_safe _ _ _ _ h]
  | err e => simp [get_logo_url, hp, truthy, writesSafe]

theorem create_image_folder_safe (fs : FS) :
    writesSafe fs.dirs (create_image_folder fs).1 = true ∧
    ("public/images") ∈ dirsAfter fs.dirs (create_image_folder fs).1 := by
  by_cases hd : ("public/images") ∈ fs.dirs <;>
    simp [create_image_folder, hd, writesSafe, dirsAfter]

/-- C5: for every candidate not opening with an HTTP or HTTPS scheme or the
vector opening tag, normalization returns the base with trailing slashes
stripped, one slash, and the candidate with leading slashes stripped; in
particular base https://example.com with candidate /img/logo.svg yields
https://example.com/img/logo.svg. -/
theorem c5_normalize_relative :
    (∀ base cand : String,
      strStarts cand ("<svg") = false →
      strStarts cand ("http://") = false →
      strStarts cand ("https://") = false →
      normalize_candidate base cand =
        rstripSlash base ++ "/" ++ lstripSlash cand) ∧
    normalize_candidate ("https://example.com") ("/img/logo.svg") =
      ("https://example.com/img/logo.svg") := by
  constructor
  · intro base cand h1 h2 h3
    simp [normalize_candidate, h1, h2, h3]
  · decide

/-- Witness for c5_normalize_relative at a concrete base and candidate. -/
theorem c5_witness :
    normalize_candidate ("https://base.org/") ("img/x.png") =
      rstripSlash ("https://base.org/") ++ "/" ++ lstripSlash ("img/x.png") :=
  c5_normalize_relative.1 ("https://base.org/") ("img/x.png")
    (by decide) (by decide) (by decide)

/-- C6: URL normalization is the identity on every candidate opening with
an HTTP or HTTPS scheme, hence idempotent there. -/
theorem c6_normalize_idem :
    ∀ base x : String,
      (strStarts x ("http://") = true ∨ strStarts x ("https://") = true) →
      normalize_candidate base x = x ∧
      normalize_candidate base (normalize_candidate base x) =
        normalize_candidate base x := by
  intro base x h
  have hx : normalize_candidate base x = x := by
    rcases h with h | h <;> simp [normalize_candidate, h]
  exact ⟨hx, by rw [hx, hx]⟩

/-- Witness for c6_normalize_idem at a concrete scheme-bearing candidate. -/
theorem c6_witness :
    normalize_candidate ("https://a.com") ("https://cdn.a.com/l.png") =
        ("https://cdn.a.com/l.png") ∧
      normalize_candidate ("https://a.com")
          (normalize_candidate ("https://a.com") ("https://cdn.a.com/l.png")) =
        normalize_candidate ("https://a.com") ("https://cdn.a.com/l.png") :=
  c6_normalize_idem ("https://a.com") ("https://cdn.a.com/l.png")
    (Or.inr (by decide))

/-- C10: in the hero-image downloader a relative source URL is made
absolute by plain concatenation with the bare host, without slash insertion
or stripping; a source not beginning with a slash therefore concatenates
host and path with no separator, as images/x.png becomes
https://preline.coimages/x.png. -/
theorem c10_hero_concat :
    (∀ s : String,
      strStarts s ("http://") = false → strStarts s ("https://") = false →
      hero_url s = "https://preline.co" ++ s) ∧
    hero_url ("images/x.png") = ("https://preline.coimages/x.png") := by
  constructor
  · intro s h1 h2
    simp [hero_url, h1, h2]
  · decide

/-- Witness for c10_hero_concat at a concrete slash-free relative source. -/
theorem c10_witness :
    hero_url ("assets/hero.png") = "https://preline.co" ++ ("assets/hero.png") :=
  c10_hero_concat.1 ("assets/hero.png") (by decide) (by decide)

/-- C3: every opened image whose mode carries an alpha channel, or is
palette-indexed with a transparency entry, is converted to plain RGB by the
pre-processing step, and the converter hands exactly that pre-processed
image to the target-format encoder before writing. -/
theorem c3_alpha_to_rgb :
    ∀ img : PILImage,
      (hasAlpha img.mode = true ∨ (img.mode = Mode.p ∧ img.transInfo = true)) →
      (preprocess img).mode = Mode.rgb ∧
      ∀ (enc : PILImage → Nat → List Nat) (d n : String) (q : Nat),
        convert_to_avif enc (Except.ok img) d n q =
          [Event.writeBin d n (enc (preprocess img) q),
           Event.log ("Successfully converted")] := by
  intro img h
  refine ⟨?_, fun enc d n q => rfl⟩
  rcases img with ⟨m, t⟩
  rcases h with h | ⟨hm, ht⟩
  · cases m <;> simp_all [hasAlpha, preprocess]
  · subst hm; subst ht; simp [preprocess]

/-- Witness for c3_alpha_to_rgb on a concrete RGBA image. -/
theorem c3_witness :
    (preprocess (PILImage.mk Mode.rgba false)).mode = Mode.rgb :=
  (c3_alpha_to_rgb (PILImage.mk Mode.rgba false) (Or.inl (by decide))).1

/-- C1 counterexample: a document whose first alt-matching img element has
no src attribute. The heuristic does not return that element's (absent)
source attribute; it falls through to the svg scan and returns the first
svg element's markup, so an svg element is inspected. -/
theorem c1_counterexample :
    firstMatchingImg c1doc = some (ImgTag.mk (some ("logo")) none) ∧
    (ImgTag.mk (some ("logo")) none).src = none ∧
    get_logo_from_doc c1doc = some (prettify (SvgTag.mk [] [])) ∧
    get_logo_from_doc c1doc ≠ none := by
  refine ⟨by decide, rfl, by decide, by decide⟩

/-- C1 amended: for every document whose first alt-matching img element
(keywords logo or brand, case-insensitive) carries a present, non-empty src
attribute, the heuristic returns that src; the result is unchanged when
every svg element is erased, so no svg element is inspected; and an img
element with no alt attribute never matches, the missing attribute reading
as the empty string. -/
theorem c1_first_img_src :
    ∀ (doc : List Node) (i : ImgTag),
      firstMatchingImg doc = some i → truthy i.src = true →
      get_logo_from_doc doc = i.src ∧
      get_logo_from_doc (eraseSvgs doc) = i.src ∧
      (∀ src : Option String, imgMatches (ImgTag.mk none src) = false) := by
  intro doc i h ht
  have he : firstMatchingImg (eraseSvgs doc) = some i := by
    unfold firstMatchingImg
    rw [imgTags_eraseSvgs]
    exact h
  refine ⟨?_, ?_, fun src => (by decide : matchesLogoAlt ("") = false)⟩
  · simp [get_logo_from_doc, h, ht]
  · simp [get_logo_from_doc, he, ht]

/-- Witness for c1_first_img_src on a document with a matching img carrying
a src, followed by an svg element. -/
theorem c1_witness :
    get_logo_from_doc
        [Node.other,
         Node.img (ImgTag.mk (some ("Site Logo")) (some ("/i/l.png"))),
         Node.svg (SvgTag.mk [] [])] =
      (ImgTag.mk (some ("Site Logo")) (some ("/i/l.png"))).src :=
  (c1_first_img_src
      [Node.other,
       Node.img (ImgTag.mk (some ("Site Logo")) (some ("/i/l.png"))),
       Node.svg (SvgTag.mk [] [])]
      (ImgTag.mk (some ("Site Logo")) (some ("/i/l.png")))
      (by decide) (by decide)).1

/-- C7: for every document with no alt-matching img element and at least
one svg element, the heuristic returns the pretty-printed markup of the
first svg element, and that string is non-empty and opens with the vector
opening tag. -/
theorem c7_svg_fallback :
    ∀ (doc : List Node) (s : SvgTag),
      firstMatchingImg doc = none → firstSvg doc = some s →
      get_logo_from_doc doc = some (prettify s) ∧
      prettify s ≠ "" ∧
      strStarts (prettify s) ("<svg") = true := by
  intro doc s h1 h2
  refine ⟨by simp [get_logo_from_doc, h1, h2, truthy], ?_, ?_⟩
  · intro h
    have hd := congrArg String.data h
    simp [prettify, strData_append] at hd
  · exact strStarts_append ("<svg") _

/-- Witness for c7_svg_fallback on a one-element document. -/
theorem c7_witness :
    get_logo_from_doc [Node.svg (SvgTag.mk [(("width"), ("40"))] [("<path/>")])] =
      some (prettify (SvgTag.mk [(("width"), ("40"))] [("<path/>")])) :=
  (c7_svg_fallback [Node.svg (SvgTag.mk [(("width"), ("40"))] [("<path/>")])]
      (SvgTag.mk [(("width"), ("40"))] [("<path/>")])
      (by decide) (by decide)).1

/-- C2: save_logo writes a candidate opening with the vector tag as text;
a candidate with an HTTP or HTTPS scheme is fetched, the body written as
binary on success, a failure caught and logged with no write; any other
candidate is logged as invalid and skipped; and every run ends normally
with at least one log line, so a failure is terminal for that one asset
only. -/
theorem c2_save_logo_branches :
    ∀ (g : String → HttpResult) (url fn : String),
      (strStarts url ("<svg") = true →
        save_logo g url fn =
          [Event.writeText ("public/images") fn url,
           Event.log ("Successfully saved " ++ fn)]) ∧
      (strStarts url ("<svg") = false →
        (strStarts url ("http://") = true ∨ strStarts url ("https://") = true) →
        (∀ b, g url = HttpResult.ok b →
          save_logo g url fn =
            [Event.writeBin ("public/images") fn b,
             Event.log ("Successfully saved " ++ fn)]) ∧
        (g url = HttpResult.fail →
          save_logo g url fn = [Event.log ("Error saving " ++ fn)] ∧
          (save_logo g url fn).any isWrite = false)) ∧
      (strStarts url ("<svg") = false → strStarts url ("http://") = false →
        strStarts url ("https://") = false →
        save_logo g url fn = [Event.log ("Invalid URL format: " ++ url)] ∧
        (save_logo g url fn).any isWrite = false) ∧
      (save_logo g url fn).any isLog = true := by
  intro g url fn
  refine ⟨fun h1 => by simp [save_logo, h1], ?_, ?_, ?_⟩
  · intro h1 h2
    have h2b : (strStarts url ("http://") || strStarts url ("https://")) = true := by
      rcases h2 with h | h <;> simp [h]
    constructor
    · intro b hb
      simp [save_logo, h1, h2b, hb]
    · intro hb
      simp [save_logo, h1, h2b, hb, isWrite]
  · intro h1 h2 h3
    simp [save_logo, h1, h2, h3, isWrite]
  · by_cases h1 : strStarts url ("<svg")
    · simp [save_logo, h1, isLog]
    · by_cases h2 : (strStarts url ("http://") || strStarts url ("https://")) = true
      · cases hg : g url <;> simp [save_logo, h1, h2, hg, isLog]
      · simp [save_logo, h1, h2, isLog]

/-- Witness for c2_save_logo_branches: a vector-markup candidate is written
as text. -/
theorem c2_witness :
    save_logo (fun _ => HttpResult.fail) ("<svg></svg>") ("a.svg") =
      [Event.writeText ("public/images") ("a.svg") ("<svg></svg>"),
       Event.log ("Successfully saved " ++ ("a.svg"))] :=
  ((c2_save_logo_branches (fun _ => HttpResult.fail) ("<svg></svg>")
      ("a.svg")).1) (by decide)

/-- C8: a fetch or parse exception is caught inside get_logo_url, which
logs it and yields the absent candidate; the main loop is the directory
step followed by the processing of both fixed sites in order; the trace of
one site depends only on the page oracle at that site, so a failure on one
site never affects another; and a failing site's trace is exactly the three
log lines ending in the no-logo report. -/
theorem c8_error_isolation :
    (∀ (pageOf : String → FetchResult) (url e : String),
      pageOf url = FetchResult.err e →
      (get_logo_url pageOf url).1 = none ∧
      (get_logo_url pageOf url).2 =
        [Event.log ("Error scraping " ++ url ++ ": " ++ e)]) ∧
    (∀ (fs : FS) (pageOf : String → FetchResult) (g : String → HttpResult),
      scrape_main fs pageOf g =
        (create_image_folder fs).1 ++
          (processSite pageOf g (("https://luih.com"), ("luih_logo.svg")) ++
           processSite pageOf g (("https://invisto.us"), ("invisto_logo.svg")))) ∧
    (∀ (p1 p2 : String → FetchResult) (g : String → HttpResult)
       (site : String × String),
      p1 site.1 = p2 site.1 →
      processSite p1 g site = processSite p2 g site) ∧
    (∀ (pageOf : String → FetchResult) (g : String → HttpResult) (u fn e : String),
      pageOf u = FetchResult.err e →
      processSite pageOf g ((u), (fn)) =
        [Event.log ("Processing " ++ u),
         Event.log ("Error scraping " ++ u ++ ": " ++ e),
         Event.log ("Could not find logo for " ++ u)]) := by
  refine ⟨?_, ?_, ?_, ?_⟩
  · intro pageOf url e h
    simp [get_logo_url, h]
  · intro fs pageOf g
    simp [scrape_main, websites, catLists]
  · intro p1 p2 g site h
    unfold processSite get_logo_url
    rw [h]
  · intro pageOf g u fn e h
    simp [processSite, get_logo_url, h, truthy]

/-- Witness for c8_error_isolation: a page oracle failing on the first site
yields its three-line trace while the second site is still processed. -/
theorem c8_witness :
    processSite (fun _ => FetchResult.err ("timeout"))
        (fun _ => HttpResult.fail)
        (("https://luih.com"), ("luih_logo.svg")) =
      [Event.log ("Processing " ++ ("https://luih.com")),
       Event.log ("Error scraping " ++ ("https://luih.com") ++ ": " ++ ("timeout")),
       Event.log ("Could not find logo for " ++ ("https://luih.com"))] :=
  c8_error_isolation.2.2.2 (fun _ => FetchResult.err ("timeout"))
    (fun _ => HttpResult.fail) ("https://luih.com") ("luih_logo.svg")
    ("timeout") rfl

/-- C9: for every fetched page containing no img element with alt equal to
Hero Image, the hero downloader only prints the informational line after
the directory step, performs no write, leaves the file set unchanged, and
when the output directory already exists leaves the whole filesystem
unchanged. -/
theorem c9_hero_no_match :
    ∀ (fs : FS) (doc : List Node) (g : String → HttpResult),
      (∀ i ∈ imgTags doc, (i.alt == some ("Hero Image")) = false) →
      (download_hero_image fs (FetchResult.ok doc) g).1 =
        (create_image_folder fs).1 ++
          [Event.log ("Could not find hero image on the page")] ∧
      (download_hero_image fs (FetchResult.ok doc) g).1.any isWrite = false ∧
      (download_hero_image fs (FetchResult.ok doc) g).2.files = fs.files ∧
      (("public/images") ∈ fs.dirs →
        (download_hero_image fs (FetchResult.ok doc) g).2 = fs) := by
  intro fs doc g h
  have hf : findHeroImg doc = none := by
    apply List.find?_eq_none.mpr
    intro i hi
    simp [h i hi]
  by_cases hd : ("public/images") ∈ fs.dirs <;>
    simp [download_hero_image, hf, create_image_folder, hd, isWrite]

/-- Witness for c9_hero_no_match on a page with one unrelated img and an
existing output directory. -/
theorem c9_witness :
    (download_hero_image (FS.mk [("public/images")] [])
        (FetchResult.ok [Node.img (ImgTag.mk (some ("Banner")) (some ("b.png")))])
        (fun _ => HttpResult.fail)).2 =
      FS.mk [("public/images")] [] :=
  (c9_hero_no_match (FS.mk [("public/images")] [])
      [Node.img (ImgTag.mk (some ("Banner")) (some ("b.png")))]
      (fun _ => HttpResult.fail)
      (by decide)).2.2.2 (by decide)

/-- C4 counterexample: on a filesystem holding the output directory and the
input file, the converter run performs a write while creating no directory
at any point, so it is not the case that all three scripts create the
output directory before writing. -/
theorem c4_counterexample :
    (convert_main c4fs c4enc (Except.ok (PILImage.mk Mode.rgb false))).any
        isWrite = true ∧
      (convert_main c4fs c4enc (Except.ok (PILImage.mk Mode.rgb false))).any
        isMkdir = false := by
  refine ⟨by decide, by decide⟩

/-- C4 amended: the logo harvester and the hero downloader create the
output directory idempotently before any write; the converter creates no
directory, but its only write is guarded by a check that its input file
exists inside that directory, so on any filesystem where that file implies
its directory, every write of all three scripts targets an existing
directory. -/
theorem c4_write_safety :
    (∀ (fs : FS) (pageOf : String → FetchResult) (g : String → HttpResult),
      writesSafe fs.dirs (scrape_main fs pageOf g) = true) ∧
    (∀ (fs : FS) (page : FetchResult) (g : String → HttpResult),
      writesSafe fs.dirs (download_hero_image fs page g).1 = true) ∧
    (∀ (fs : FS) (enc : PILImage → Nat → List Nat)
       (openImg : Except String PILImage),
      (("public/images/hero-image.png") ∈ fs.files →
        ("public/images") ∈ fs.dirs) →
      writesSafe fs.dirs (convert_main fs enc openImg) = true) := by
  refine ⟨?_, ?_, ?_⟩
  · intro fs pageOf g
    have hc := create_image_folder_safe fs
    unfold scrape_main
    rw [writesSafe_append, hc.1]
    have h1 := processSite_safe pageOf g
      (("https://luih.com"), ("luih_logo.svg")) _ hc.2
    have h2 := processSite_safe pageOf g
      (("https://invisto.us"), ("invisto_logo.svg"))
      (dirsAfter (dirsAfter fs.dirs (create_image_folder fs).1)
        (processSite pageOf g (("https://luih.com"), ("luih_logo.svg"))))
      (mem_dirsAfter _ _ _ hc.2)
    have hsplit : catLists (websites.map (processSite pageOf g)) =
        processSite pageOf g (("https://luih.com"), ("luih_logo.svg")) ++
          (processSite pageOf g (("https://invisto.us"), ("invisto_logo.svg")) ++
            []) := rfl
    rw [hsplit, writesSafe_append, writesSafe_append, h1, h2]
    simp [writesSafe]
  · intro fs page g
    have hc := create_image_folder_safe fs
    cases page with
    | err e =>
      simp [download_hero_image, writesSafe_append, hc.1, writesSafe]
    | ok doc =>
      cases hf : findHeroImg doc with
      | none =>
        simp [download_hero_image, hf, writesSafe_append, hc.1, writesSafe]
      | some i =>
        by_cases ht : truthy i.src
        · cases hg : g (hero_url (i.src.getD (""))) with
          | ok body =>
            simp [download_hero_image, hf, ht, hg, writesSafe_append, hc.1,
              writesSafe, hc.2]
          | fail =>
            simp [download_hero_image, hf, ht, hg, writesSafe_append, hc.1,
              writesSafe]
        · simp [download_hero_image, hf, ht, writesSafe_append, hc.1, writesSafe]
  · intro fs enc openImg h
    by_cases hf : ("public/images/hero-image.png") ∈ fs.files
    · have hd := h hf
      cases openImg <;>
        simp [convert_main, convert_to_avif, hf, hd, writesSafe]
    · simp [convert_main, hf, writesSafe]

/-- Witness for c4_write_safety: the scraper run from an empty filesystem
with failing oracles is write-safe, and the converter is write-safe on a
filesystem satisfying the guard. -/
theorem c4_witness :
    writesSafe (FS.mk [] []).dirs
        (scrape_main (FS.mk [] []) (fun _ => FetchResult.err ("down"))
          (fun _ => HttpResult.fail)) = true ∧
      writesSafe c4fs.dirs
        (convert_main c4fs c4enc (Except.ok (PILImage.mk Mode.rgb false))) =
        true :=
  ⟨c4_write_safety.1 (FS.mk [] []) (fun _ => FetchResult.err ("down"))
      (fun _ => HttpResult.fail),
   c4_write_safety.2.2 c4fs c4enc (Except.ok (PILImage.mk Mode.rgb false))
      (fun _ => by decide)⟩
